import Mathlib

/-!
Verification development for the gauges_backend repository (src/main.rs and
src/dto.rs): a serial gauge-display simulator exchanging newline-delimited
JSON messages.  Wire bytes are embedded as Nat (values 0-255), Rust Strings
as their UTF-8 byte lists, and the f32 fields as exact rationals (every
numeric constant the program puts in a Configuration is exactly
representable).  The serial port is embedded as a list of read events, each
event being either a successfully read chunk of bytes (the source reads one
byte at a time into a 1-byte buffer, so real chunks have size 0 or 1; the
byte-handling loop is written for arbitrary sizes and the model keeps that
generality) or an I/O error.
-/

namespace GaugesBackend

/-- Mirrors MESSAGE_END_BYTE in src/main.rs: the newline delimiter 0x0A. -/
def MESSAGE_END_BYTE : Nat := 10

/-- State of the framing loop in read_message_string (src/main.rs lines 59-62):
the accumulated message bytes and the two boolean flags. -/
structure ReadState where
  buf : List Nat
  foundStart : Bool
  foundEnd : Bool
deriving DecidableEq

/-- Initial framing state: empty buffer, neither delimiter seen. -/
def initReadState : ReadState := ⟨[], false, false⟩

/-- Mirrors the per-byte body of the for-loop in read_message_string
(src/main.rs lines 72-88): the first delimiter byte sets found_message_start,
the next sets found_message_end, and a non-delimiter byte is pushed onto the
buffer exactly when the start has been seen and the end has not. -/
def stepByte (s : ReadState) (byte : Nat) : ReadState :=
  if byte = MESSAGE_END_BYTE then
    if s.foundStart = false then ⟨s.buf, true, s.foundEnd⟩
    else if s.foundEnd = false then ⟨s.buf, s.foundStart, true⟩
    else s
  else
    if s.foundStart = true ∧ s.foundEnd = false then ⟨s.buf ++ [byte], s.foundStart, s.foundEnd⟩
    else s

/-- One result of port.read in the while-loop of read_message_string: either a
chunk of bytes (possibly empty, as on a read timeout) or an I/O error. -/
inductive ReadEvent where
  | chunk (bytes : List Nat)
  | ioErr
deriving DecidableEq

/-- Outcome of the framing while-loop: a complete payload, a transport I/O
error, or the loop still waiting for more reads when the event list ran out. -/
inductive ReadOutcome where
  | ok (payload : List Nat)
  | ioError
  | blocked
deriving DecidableEq

/-- Mirrors the while-loop of read_message_string (src/main.rs lines 64-94):
while the end delimiter has not been found, perform one read; an Ok(size)
result feeds the chunk bytes through stepByte, an Err result aborts with an
I/O error.  Also returns the events left unconsumed on the port. -/
def readLoop (s : ReadState) (evs : List ReadEvent) : ReadOutcome × List ReadEvent :=
  if s.foundEnd = true then (ReadOutcome.ok s.buf, evs)
  else
    match evs with
    | [] => (ReadOutcome.blocked, [])
    | ReadEvent.ioErr :: rest => (ReadOutcome.ioError, rest)
    | ReadEvent.chunk bytes :: rest => readLoop (bytes.foldl stepByte s) rest

/-- Mirrors the byte-oriented branch structure of Rust's str::from_utf8 /
String::from_utf8 validation: true exactly when the byte list is well-formed
UTF-8 (RFC 3629: no overlong forms, no surrogates, nothing above U+10FFFF). -/
def utf8Cont (b : Nat) : Bool := 0x80 ≤ b && b ≤ 0xBF

/-- UTF-8 validity of a byte list, as checked by String::from_utf8 in
read_message_string (src/main.rs line 96). -/
def utf8Valid : List Nat → Bool
  | [] => true
  | b :: rest =>
    if b ≤ 0x7F then utf8Valid rest
    else if 0xC2 ≤ b && b ≤ 0xDF then
      match rest with
      | c1 :: rest1 => utf8Cont c1 && utf8Valid rest1
      | [] => false
    else if b = 0xE0 then
      match rest with
      | c1 :: c2 :: rest2 => (0xA0 ≤ c1 && c1 ≤ 0xBF) && utf8Cont c2 && utf8Valid rest2
      | _ => false
    else if b = 0xED then
      match rest with
      | c1 :: c2 :: rest2 => (0x80 ≤ c1 && c1 ≤ 0x9F) && utf8Cont c2 && utf8Valid rest2
      | _ => false
    else if 0xE1 ≤ b && b ≤ 0xEF then
      match rest with
      | c1 :: c2 :: rest2 => utf8Cont c1 && utf8Cont c2 && utf8Valid rest2
      | _ => false
    else if b = 0xF0 then
      match rest with
      | c1 :: c2 :: c3 :: rest3 =>
        (0x90 ≤ c1 && c1 ≤ 0xBF) && utf8Cont c2 && utf8Cont c3 && utf8Valid rest3
      | _ => false
    else if 0xF1 ≤ b && b ≤ 0xF3 then
      match rest with
      | c1 :: c2 :: c3 :: rest3 => utf8Cont c1 && utf8Cont c2 && utf8Cont c3 && utf8Valid rest3
      | _ => false
    else if b = 0xF4 then
      match rest with
      | c1 :: c2 :: c3 :: rest3 =>
        (0x80 ≤ c1 && c1 ≤ 0x8F) && utf8Cont c2 && utf8Cont c3 && utf8Valid rest3
      | _ => false
    else false

/-- Mirrors enum Error in src/main.rs lines 34-41: transport I/O failure,
UTF-8 conversion failure, and JSON parsing failure carrying the source text
(here: its bytes). -/
inductive Error where
  | ioError
  | utfConversion
  | jsonParsing (source_string : List Nat)
deriving DecidableEq

/-- Result of read_message_string: a payload string (a Rust String, i.e. its
UTF-8 bytes), an Error, or blocked when the modelled port ran out of events
mid-message. -/
inductive StrResult where
  | ok (s : List Nat)
  | err (e : Error)
  | blocked
deriving DecidableEq

/-- Mirrors read_message_string (src/main.rs lines 58-104): run the framing
loop, then convert the collected bytes with String::from_utf8; a conversion
failure becomes Error::UtfConversion. -/
def read_message_string (evs : List ReadEvent) : StrResult × List ReadEvent :=
  match readLoop initReadState evs with
  | (ReadOutcome.ok bytes, rest) =>
    (if utf8Valid bytes then StrResult.ok bytes else StrResult.err Error.utfConversion, rest)
  | (ReadOutcome.ioError, rest) => (StrResult.err Error.ioError, rest)
  | (ReadOutcome.blocked, rest) => (StrResult.blocked, rest)

/-- UTF-8 encoding of one Unicode code point, used to turn Lean string
literals into the byte lists that stand for Rust Strings. -/
def utf8EncodeChar (c : Nat) : List Nat :=
  if c < 0x80 then [c]
  else if c < 0x800 then [0xC0 + c / 0x40, 0x80 + c % 0x40]
  else if c < 0x10000 then [0xE0 + c / 0x1000, 0x80 + (c / 0x40) % 0x40, 0x80 + c % 0x40]
  else [0xF0 + c / 0x40000, 0x80 + (c / 0x1000) % 0x40, 0x80 + (c / 0x40) % 0x40, 0x80 + c % 0x40]

/-- The UTF-8 bytes of a Lean string; the embedding of a Rust String value. -/
def strBytes (s : String) : List Nat := (s.data.map (fun c => utf8EncodeChar c.toNat)).flatten

/-- Model of a serde_json Value (the JSON codec is an external collaborator
of the repository; this models the tree that serde_json::Value holds for the
protocol subset, with integer numbers kept exactly).  Object member lists
produced by the parser below have unique keys, later duplicates overriding
earlier ones as in serde_json's map. -/
inductive Json where
  | null
  | boolVal (b : Bool)
  | intNum (n : Int)
  | str (s : List Nat)
  | arr (elems : List Json)
  | obj (members : List (List Nat × Json))

/-- Lookup of an object member, as serde_json's Value::get(key): none on a
non-object value or a missing key. -/
def getMember : List (List Nat × Json) → List Nat → Option Json
  | [], _ => none
  | (k2, v) :: rest, k => if k = k2 then some v else getMember rest k

/-- Value::get on the modelled Json tree. -/
def Json.get : Json → List Nat → Option Json
  | Json.obj members, k => getMember members k
  | _, _ => none

/-- Value::as_u64: some exactly when the value is an integer number in the
u64 range (serde_json stores larger or negative or fractional numbers in
representations for which as_u64 is None). -/
def Json.as_u64 : Json → Option Nat
  | Json.intNum n => if 0 ≤ n ∧ n < 2 ^ 64 then some n.toNat else none
  | _ => none

/-- JSON insignificant whitespace bytes. -/
def isWs (b : Nat) : Bool := b = 32 || b = 9 || b = 10 || b = 13

/-- Drop leading JSON whitespace. -/
def skipWs : List Nat → List Nat
  | [] => []
  | b :: rest => if isWs b then skipWs rest else b :: rest

/-- ASCII decimal digit test. -/
def isDigit (b : Nat) : Bool := 48 ≤ b && b ≤ 57

/-- Split a byte list into its leading run of digits and the remainder. -/
def takeDigits : List Nat → List Nat × List Nat
  | [] => ([], [])
  | b :: rest =>
    if isDigit b then
      match takeDigits rest with
      | (ds, r) => (b :: ds, r)
    else ([], b :: rest)

/-- Numeric value of a digit-byte list. -/
def digitsToNat (ds : List Nat) : Nat := ds.foldl (fun acc d => acc * 10 + (d - 48)) 0

/-- Body of a JSON string after the opening quote: content bytes (escapes
resolved) and the remainder after the closing quote.  Models serde_json's
string scanning for the escapes the protocol can carry; the \u escape form
is outside the modelled subset and is rejected. -/
def parseStringBody : List Nat → Option (List Nat × List Nat)
  | [] => none
  | b :: rest =>
    if b = 34 then some ([], rest)
    else if b = 92 then
      match rest with
      | [] => none
      | e :: rest2 =>
        match
          (if e = 34 then some 34 else if e = 92 then some 92
           else if e = 47 then some 47 else if e = 98 then some 8
           else if e = 102 then some 12 else if e = 110 then some 10
           else if e = 114 then some 13 else if e = 116 then some 9 else none : Option Nat)
        with
        | some c =>
          match parseStringBody rest2 with
          | some (s, r) => some (c :: s, r)
          | none => none
        | none => none
    else if b < 32 then none
    else
      match parseStringBody rest with
      | some (s, r) => some (b :: s, r)
      | none => none

/-- Integer number parse after its first byte, rejecting leading zeros and
the fraction/exponent forms (floats are outside the modelled subset). -/
def parseDigitsNum (neg : Bool) (d : Nat) (rest : List Nat) : Option (Json × List Nat) :=
  match takeDigits rest with
  | (ds, r) =>
    if d = 48 && ds ≠ [] then none
    else
      match r with
      | 46 :: _ => none
      | 101 :: _ => none
      | 69 :: _ => none
      | _ =>
        let n : Int := Int.ofNat (digitsToNat (d :: ds))
        some (Json.intNum (if neg then -n else n), r)

/-- Number parse from its first byte (an optional minus sign then digits). -/
def parseNumberRest (b : Nat) (rest : List Nat) : Option (Json × List Nat) :=
  if b = 45 then
    match rest with
    | d :: r => if isDigit d then parseDigitsNum true d r else none
    | [] => none
  else if isDigit b then parseDigitsNum false b rest
  else none

/-- Does a member list already bind a key (used for duplicate override). -/
def hasKey (k : List Nat) : List (List Nat × Json) → Bool
  | [] => false
  | (k2, _) :: rest => k = k2 || hasKey k rest

mutual

/-- Model of serde_json's text-to-Value parse for the protocol's JSON subset
(null, booleans, integer numbers, escaped strings, arrays, objects); texts
outside the subset are rejected, which the session loop treats exactly like
any other parse failure.  Fuel bounds nesting depth. -/
def parseValue : Nat → List Nat → Option (Json × List Nat)
  | 0, _ => none
  | fuel + 1, s =>
    match skipWs s with
    | [] => none
    | b :: rest =>
      if b = 110 then
        match rest with
        | 117 :: 108 :: 108 :: r => some (Json.null, r)
        | _ => none
      else if b = 116 then
        match rest with
        | 114 :: 117 :: 101 :: r => some (Json.boolVal true, r)
        | _ => none
      else if b = 102 then
        match rest with
        | 97 :: 108 :: 115 :: 101 :: r => some (Json.boolVal false, r)
        | _ => none
      else if b = 34 then
        match parseStringBody rest with
        | some (cs, r) => some (Json.str cs, r)
        | none => none
      else if b = 91 then
        match skipWs rest with
        | 93 :: r => some (Json.arr [], r)
        | r2 => match parseElems fuel r2 with
          | some (vs, r) => some (Json.arr vs, r)
          | none => none
      else if b = 123 then
        match skipWs rest with
        | 125 :: r => some (Json.obj [], r)
        | r2 => match parseMembers fuel r2 with
          | some (ms, r) => some (Json.obj ms, r)
          | none => none
      else parseNumberRest b rest

/-- One-or-more array elements up to the closing bracket. -/
def parseElems : Nat → List Nat → Option (List Json × List Nat)
  | 0, _ => none
  | fuel + 1, s =>
    match parseValue fuel s with
    | none => none
    | some (v, r) =>
      match skipWs r with
      | 44 :: r2 =>
        match parseElems fuel r2 with
        | some (vs, r3) => some (v :: vs, r3)
        | none => none
      | 93 :: r2 => some ([v], r2)
      | _ => none

/-- One-or-more object members up to the closing brace, later duplicates
overriding earlier ones. -/
def parseMembers : Nat → List Nat → Option (List (List Nat × Json) × List Nat)
  | 0, _ => none
  | fuel + 1, s =>
    match skipWs s with
    | 34 :: r =>
      match parseStringBody r with
      | some (k, r2) =>
        match skipWs r2 with
        | 58 :: r3 =>
          match parseValue fuel r3 with
          | none => none
          | some (v, r4) =>
            match skipWs r4 with
            | 44 :: r5 =>
              match parseMembers fuel r5 with
              | some (ms, r6) => some (if hasKey k ms then ms else (k, v) :: ms, r6)
              | none => none
            | 125 :: r5 => some ([(k, v)], r5)
            | _ => none
        | _ => none
      | none => none
    | _ => none

end

/-- Full-text parse as serde_json::from_str performs it: one value, then
nothing but whitespace may remain. -/
def parseJson (bytes : List Nat) : Option Json :=
  match parseValue (bytes.length + 1) bytes with
  | some (v, r) => if skipWs r = [] then some v else none
  | none => none

/-- The bytes of the discriminant key "type". -/
def typeKey : List Nat := strBytes ("type")

/-- Mirrors enum InMessage in src/dto.rs lines 110-113.  main.rs's
handle_message (line 207) additionally matches an InMessage::Debug variant
carrying a text message; the embedding includes that variant so the
dispatcher can be translated as written.  The deserializer below never
produces it, faithful to src/dto.rs. -/
inductive InMessage where
  | needGaugeConfig
  | needGaugeData
  | debug (message : List Nat)
deriving DecidableEq

/-- Outcome of InMessage::deserialize on an already-parsed Value: a message,
or a process-terminating panic (the .unwrap() on a missing/non-u64 "type"
and the panic arm for unsupported discriminants, src/dto.rs lines 119-122). -/
inductive DeserResult where
  | ok (m : InMessage)
  | panicked
deriving DecidableEq

/-- Mirrors impl Deserialize for InMessage (src/dto.rs lines 115-125):
value.get("type").and_then(Value::as_u64).unwrap() panics when the chain is
None; discriminant 1 is NeedGaugeConfig, 2 is NeedGaugeData, and any other
discriminant hits the panic arm. -/
def inMessage_deserialize (v : Json) : DeserResult :=
  match (Json.get v typeKey).bind Json.as_u64 with
  | none => DeserResult.panicked
  | some 1 => DeserResult.ok InMessage.needGaugeConfig
  | some 2 => DeserResult.ok InMessage.needGaugeData
  | some _ => DeserResult.panicked

/-- Packed 16-bit colors from src/dto.rs lines 8-16. -/
def OLED_COLOR_BLACK : Nat := 0x0000
def OLED_COLOR_BLUE : Nat := 0x001F
def OLED_COLOR_RED : Nat := 0xF800
def OLED_COLOR_GREEN : Nat := 0x07E0
def OLED_COLOR_CYAN : Nat := 0x07FF
def OLED_COLOR_MAGENTA : Nat := 0xF81F
def OLED_COLOR_YELLOW : Nat := 0xFFE0
def OLED_COLOR_WARM : Nat := 0xFC00
def OLED_COLOR_WHITE : Nat := 0xFFFF

/-- Mirrors struct GaugeTheme (src/dto.rs lines 18-24); u16 fields as Nat. -/
structure GaugeTheme where
  ok_color : Nat
  low_color : Nat
  high_color : Nat
  alert_color : Nat
deriving DecidableEq

/-- Mirrors impl Default for GaugeTheme (src/dto.rs lines 26-35). -/
def GaugeTheme.default : GaugeTheme :=
  ⟨OLED_COLOR_WARM, OLED_COLOR_BLUE, OLED_COLOR_RED, OLED_COLOR_RED⟩

/-- Mirrors struct GaugeConfig (src/dto.rs lines 37-46); the Rust String
fields are UTF-8 byte lists via strBytes, the f32 fields exact rationals. -/
structure GaugeConfig where
  name : List Nat
  units : List Nat
  format : List Nat
  min : ℚ
  max : ℚ
  low_value : ℚ
  high_value : ℚ
deriving DecidableEq

/-- Mirrors struct GaugeData (src/dto.rs lines 48-51). -/
structure GaugeData where
  current_value : ℚ
deriving DecidableEq

/-- Mirrors struct DisplayConfiguration (src/dto.rs lines 59-62). -/
structure DisplayConfiguration where
  gauges : List GaugeConfig
deriving DecidableEq

/-- Mirrors struct Configuration (src/dto.rs lines 64-70). -/
structure Configuration where
  theme : GaugeTheme
  display1 : DisplayConfiguration
  display2 : DisplayConfiguration
  display3 : DisplayConfiguration
deriving DecidableEq

/-- Mirrors struct DisplayData (src/dto.rs lines 74-77). -/
structure DisplayData where
  gauges : List GaugeData
deriving DecidableEq

/-- Mirrors struct Data (src/dto.rs lines 79-84). -/
structure Data where
  display1 : DisplayData
  display2 : DisplayData
  display3 : DisplayData
deriving DecidableEq

/-- Mirrors enum OutMessage (src/dto.rs lines 86-89). -/
inductive OutMessage where
  | configuration (message : Configuration)
  | data (message : Data)
deriving DecidableEq

/-- Mirrors handle_message (src/main.rs lines 147-212).  The rng.gen::<f32>()
sample of the NeedGaugeData arm is external randomness; it enters the
embedding as the factor argument, which the source draws from [0, 1). -/
def handle_message (factor : ℚ) (message : InMessage) : Option OutMessage :=
  match message with
  | InMessage.needGaugeConfig =>
    some (OutMessage.configuration
      ⟨GaugeTheme.default,
       ⟨[⟨strBytes ("COOLANT"), strBytes ("C"), strBytes ("%.0f"), 0, 130, 60, 100⟩]⟩,
       ⟨[⟨strBytes ("OIL"), strBytes ("bar"), strBytes ("%.2f"), 0, 10, 1, 8⟩]⟩,
       ⟨[]⟩⟩)
  | InMessage.needGaugeData =>
    some (OutMessage.data
      ⟨⟨[⟨77 * factor⟩]⟩, ⟨[⟨(6.5 : ℚ) * factor⟩]⟩, ⟨[]⟩⟩)
  | InMessage.debug _ => none

/-- Mirrors handle_error (src/main.rs lines 133-145): an Error::IO is
returned as Err (fatal, the caller abandons the port), every other error is
only logged and the call returns Ok. -/
def handle_error (error : Error) : Except Error Unit :=
  match error with
  | Error.ioError => Except.error Error.ioError
  | _ => Except.ok ()

/-- Lowercase hex digit byte. -/
def hexDigit (n : Nat) : Nat := if n < 10 then 48 + n else 87 + n

/-- serde_json's byte escaping inside string output: quote, backslash, the
short control escapes, \u00xx for other control bytes, everything else
verbatim. -/
def jsonEscapeByte (b : Nat) : List Nat :=
  if b = 34 then [92, 34]
  else if b = 92 then [92, 92]
  else if b = 8 then [92, 98]
  else if b = 9 then [92, 116]
  else if b = 10 then [92, 110]
  else if b = 12 then [92, 102]
  else if b = 13 then [92, 114]
  else if b < 32 then [92, 117, 48, 48, hexDigit (b / 16), hexDigit (b % 16)]
  else [b]

/-- A JSON string token: opening quote, escaped content bytes, closing
quote. -/
def quoteBytes (s : List Nat) : List Nat := [34] ++ (s.map jsonEscapeByte).flatten ++ [34]

/-- Decimal digit bytes of a natural number. -/
def natBytes (n : Nat) : List Nat := strBytes (Nat.repr n)

/-- Left-pad digit bytes with zeros to a fixed width. -/
def padZeros (k : Nat) (ds : List Nat) : List Nat := List.replicate (k - ds.length) 48 ++ ds

/-- Drop trailing zero digits. -/
def trimTrailingZeros (ds : List Nat) : List Nat :=
  (ds.reverse.dropWhile (fun d => d = 48)).reverse

/-- Model of serde_json's f32 text output (the Ryu shortest form) for the
values the program serializes: every f32 the Configuration response contains
is a small integer, and Ryu prints those as the exact decimal expansion with
a single trailing .0 digit kept; the same exact-expansion rendering is used
for the other terminating-decimal rationals.  A rational without a
terminating decimal expansion is not the value of any f32 and gets a
placeholder rendering on a branch no program value reaches. -/
def fmtF32 (q : ℚ) : List Nat :=
  let sign : List Nat := if q.num < 0 then [45] else []
  match (List.range 40).find? (fun k => 10 ^ k % q.den = 0) with
  | some k =>
    let scaled : Nat := q.num.natAbs * (10 ^ k / q.den)
    let fr := trimTrailingZeros (padZeros k (natBytes (scaled % 10 ^ k)))
    sign ++ natBytes (scaled / 10 ^ k) ++ [46] ++ (if fr = [] then [48] else fr)
  | none => sign ++ natBytes q.num.natAbs ++ [47] ++ natBytes q.den

/-- One serialized object member: quoted key, colon, value bytes. -/
def jfield (key : String) (v : List Nat) : List Nat := quoteBytes (strBytes key) ++ [58] ++ v

/-- Compact JSON object from serialized members, as serde_json writes it. -/
def jobj (fields : List (List Nat)) : List Nat := [123] ++ List.intercalate [44] fields ++ [125]

/-- Compact JSON array from serialized elements. -/
def jarr (elems : List (List Nat)) : List Nat := [91] ++ List.intercalate [44] elems ++ [93]

/-- Serialization of GaugeTheme per its Serialize derive (field order as
declared in src/dto.rs). -/
def serializeGaugeTheme (t : GaugeTheme) : List Nat :=
  jobj [jfield ("ok_color") (natBytes t.ok_color),
        jfield ("low_color") (natBytes t.low_color),
        jfield ("high_color") (natBytes t.high_color),
        jfield ("alert_color") (natBytes t.alert_color)]

/-- Serialization of GaugeConfig per its Serialize derive. -/
def serializeGaugeConfig (g : GaugeConfig) : List Nat :=
  jobj [jfield ("name") (quoteBytes g.name),
        jfield ("units") (quoteBytes g.units),
        jfield ("format") (quoteBytes g.format),
        jfield ("min") (fmtF32 g.min),
        jfield ("max") (fmtF32 g.max),
        jfield ("low_value") (fmtF32 g.low_value),
        jfield ("high_value") (fmtF32 g.high_value)]

/-- Serialization of DisplayConfiguration per its Serialize derive. -/
def serializeDisplayConfiguration (d : DisplayConfiguration) : List Nat :=
  jobj [jfield ("gauges") (jarr (d.gauges.map serializeGaugeConfig))]

/-- Serialization of Configuration per its Serialize derive. -/
def serializeConfiguration (c : Configuration) : List Nat :=
  jobj [jfield ("theme") (serializeGaugeTheme c.theme),
        jfield ("display1") (serializeDisplayConfiguration c.display1),
        jfield ("display2") (serializeDisplayConfiguration c.display2),
        jfield ("display3") (serializeDisplayConfiguration c.display3)]

/-- Serialization of GaugeData per its Serialize derive. -/
def serializeGaugeData (g : GaugeData) : List Nat :=
  jobj [jfield ("current_value") (fmtF32 g.current_value)]

/-- Serialization of DisplayData per its Serialize derive. -/
def serializeDisplayData (d : DisplayData) : List Nat :=
  jobj [jfield ("gauges") (jarr (d.gauges.map serializeGaugeData))]

/-- Serialization of Data per its Serialize derive. -/
def serializeData (d : Data) : List Nat :=
  jobj [jfield ("display1") (serializeDisplayData d.display1),
        jfield ("display2") (serializeDisplayData d.display2),
        jfield ("display3") (serializeDisplayData d.display3)]

/-- Mirrors impl Serialize for OutMessage (src/dto.rs lines 91-108): a
two-member struct, "type" 1 for Configuration and 2 for Data, then
"message". -/
def serializeOutMessage : OutMessage → List Nat
  | OutMessage.configuration m => jobj [jfield ("type") (natBytes 1),
                                        jfield ("message") (serializeConfiguration m)]
  | OutMessage.data m => jobj [jfield ("type") (natBytes 2),
                               jfield ("message") (serializeData m)]

/-- Mirrors write_message (src/main.rs lines 214-232): serialize, append the
single trailing MESSAGE_END_BYTE, write the buffer with write_all.  The
writeOk argument models whether that write_all succeeds; on failure the
function returns handle_error(Error::IO(..)), which is Err.  The second
component is the byte sequence put on the wire (none when the write
failed). -/
def write_message (writeOk : Bool) (message : OutMessage) : Except Error Unit × Option (List Nat) :=
  let out_message_buf := serializeOutMessage message ++ [MESSAGE_END_BYTE]
  if writeOk then (Except.ok (), some out_message_buf)
  else (handle_error Error.ioError, none)

/-- Result of read_message: a message, an Error, the deserializer panic, or
blocked when the modelled port ran out of events mid-message. -/
inductive MsgResult where
  | ok (m : InMessage)
  | err (e : Error)
  | panicked
  | blocked
deriving DecidableEq

/-- Mirrors read_message (src/main.rs lines 106-131): while the
is_communication_begin flag is set, clear it and synthesize NeedGaugeConfig
without touching the port; otherwise read one framed string and parse it
with serde_json::from_str::<InMessage> (text parse failure is
Error::JsonParsing carrying the source string; a parsed Value goes through
inMessage_deserialize, whose panic terminates the process).  Returns the
result, the new flag value, and the unconsumed port events. -/
def read_message (is_communication_begin : Bool) (evs : List ReadEvent) :
    MsgResult × Bool × List ReadEvent :=
  if is_communication_begin then (MsgResult.ok InMessage.needGaugeConfig, false, evs)
  else
    match read_message_string evs with
    | (StrResult.ok json_string, rest) =>
      match parseJson json_string with
      | none => (MsgResult.err (Error.jsonParsing json_string), false, rest)
      | some v =>
        match inMessage_deserialize v with
        | DeserResult.ok m => (MsgResult.ok m, false, rest)
        | DeserResult.panicked => (MsgResult.panicked, false, rest)
    | (StrResult.err e, rest) => (MsgResult.err e, false, rest)
    | (StrResult.blocked, rest) => (MsgResult.blocked, false, rest)

/-- What one iteration of the inner loop of main does to the session: keep
Serving, or break and abandon the port (the Faulted transition), plus the
process-terminating and still-waiting outcomes of the model. -/
inductive StepOutcome where
  | stayServing
  | faulted
  | panicked
  | blocked
deriving DecidableEq

/-- Mirrors the dispatch-then-write half of the loop body in main
(src/main.rs lines 248-255): handle_message(..).and_then(write_message ..);
a Some(Err(..)) result breaks the loop (faulted), a None result means no
write and the loop continues.  Second component: bytes written, if any. -/
def dispatch_write (factor : ℚ) (writeOk : Bool) (message : InMessage) :
    StepOutcome × Option (List Nat) :=
  match handle_message factor message with
  | some out_message =>
    match write_message writeOk out_message with
    | (Except.ok _, w) => (StepOutcome.stayServing, w)
    | (Except.error _, w) => (StepOutcome.faulted, w)
  | none => (StepOutcome.stayServing, none)

/-- Mirrors one full iteration of the inner Serving loop in main
(src/main.rs lines 244-264) with the handshake flag already cleared: read a
message; on Ok dispatch and possibly write; on Err run handle_error, whose
Err result (only for Error::IO) breaks the loop and abandons the port.
Returns the outcome, the bytes written in this iteration, and the
unconsumed port events. -/
def serving_step (factor : ℚ) (writeOk : Bool) (evs : List ReadEvent) :
    StepOutcome × Option (List Nat) × List ReadEvent :=
  match read_message false evs with
  | (MsgResult.ok message, _, rest) =>
    match dispatch_write factor writeOk message with
    | (o, w) => (o, w, rest)
  | (MsgResult.err error, _, rest) =>
    match handle_error error with
    | Except.ok _ => (StepOutcome.stayServing, none, rest)
    | Except.error _ => (StepOutcome.faulted, none, rest)
  | (MsgResult.panicked, _, rest) => (StepOutcome.panicked, none, rest)
  | (MsgResult.blocked, _, rest) => (StepOutcome.blocked, none, rest)

/-- Serial-port settings baked into get_port (src/main.rs lines 21-22). -/
structure PortSettings where
  name : String
  baud : Nat
  timeout_ms : Nat
deriving DecidableEq

/-- Outcome of get_port: no port found, a port opened with its settings, or
a process-terminating panic from one of the .expect calls. -/
inductive GetPortOutcome where
  | nonePort
  | somePort (p : PortSettings)
  | panicked
deriving DecidableEq

/-- Mirrors get_port (src/main.rs lines 12-32).  availablePorts models
serialport::available_ports(): none for Err (the .expect on line 15 then
panics), some names for Ok.  openPort models the builder chain
serialport::new(name, 115200).timeout(1000ms).open() followed by
port.name(): none for an open failure (the .expect on line 24 panics),
some none for an opened port whose name() is None (the .expect on line 26
panics), some (some nm) for success.  The for-loop returns on its first
iteration, so only the first enumerated port is ever considered. -/
def get_port (availablePorts : Option (List String))
    (openPort : String → Option (Option String)) : GetPortOutcome :=
  match availablePorts with
  | none => GetPortOutcome.panicked
  | some [] => GetPortOutcome.nonePort
  | some (port_name :: _) =>
    match openPort port_name with
    | none => GetPortOutcome.panicked
    | some none => GetPortOutcome.panicked
    | some (some _) => GetPortOutcome.somePort ⟨port_name, 115200, 1000⟩

set_option maxRecDepth 8000

/-! Helper lemmas about the framing state machine. -/

theorem stepByte_stable (s : ReadState) (b : Nat) (hs : s.foundStart = true)
    (he : s.foundEnd = true) : stepByte s b = s := by
  unfold stepByte
  rw [hs, he]
  simp

theorem foldl_stepByte_stable (l : List Nat) (s : ReadState) (hs : s.foundStart = true)
    (he : s.foundEnd = true) : l.foldl stepByte s = s := by
  induction l with
  | nil => rfl
  | cons b rest ih => rw [List.foldl_cons, stepByte_stable s b hs he]; exact ih

theorem stepByte_keeps_inv (s : ReadState) (b : Nat)
    (hinv : s.foundEnd = true → s.foundStart = true) :
    (stepByte s b).foundEnd = true → (stepByte s b).foundStart = true := by
  obtain ⟨buf, fs, fe⟩ := s
  by_cases hb : b = MESSAGE_END_BYTE <;> cases fs <;> cases fe <;> simp_all [stepByte]

theorem foldl_stepByte_inv (l : List Nat) (s : ReadState)
    (hinv : s.foundEnd = true → s.foundStart = true) :
    (l.foldl stepByte s).foundEnd = true → (l.foldl stepByte s).foundStart = true := by
  induction l generalizing s with
  | nil => exact hinv
  | cons b rest ih =>
    rw [List.foldl_cons]
    exact ih (stepByte s b) (stepByte_keeps_inv s b hinv)

/-- The framing loop over chunk events computes the same state as folding the
byte-handling step over the concatenation of all chunks: chunk boundaries are
invisible to the state machine. -/
theorem readLoop_chunks (chunks : List (List Nat)) (s : ReadState)
    (hinv : s.foundEnd = true → s.foundStart = true) :
    (readLoop s (chunks.map ReadEvent.chunk)).1 =
      if (chunks.flatten.foldl stepByte s).foundEnd = true
      then ReadOutcome.ok (chunks.flatten.foldl stepByte s).buf
      else ReadOutcome.blocked := by
  induction chunks generalizing s with
  | nil =>
    by_cases h : s.foundEnd = true
    · simp [readLoop, h]
    · simp [readLoop, h]
  | cons c cs ih =>
    by_cases h : s.foundEnd = true
    · have hs := hinv h
      have h1 : (c :: cs).flatten.foldl stepByte s = s := by
        rw [List.flatten_cons, List.foldl_append, foldl_stepByte_stable c s hs h,
          foldl_stepByte_stable cs.flatten s hs h]
      rw [h1, List.map_cons, readLoop]
      simp [h]
    · have h2 : readLoop s (ReadEvent.chunk c :: cs.map ReadEvent.chunk) =
          readLoop (c.foldl stepByte s) (cs.map ReadEvent.chunk) := by
        rw [readLoop]
        simp [h]
      rw [List.map_cons, h2, ih (c.foldl stepByte s) (foldl_stepByte_inv c s hinv),
        List.flatten_cons, List.foldl_append]

theorem foldl_stepByte_skip (p : List Nat) (hp : ∀ b ∈ p, b ≠ MESSAGE_END_BYTE)
    (buf : List Nat) (fe : Bool) :
    p.foldl stepByte ⟨buf, false, fe⟩ = ⟨buf, false, fe⟩ := by
  induction p with
  | nil => rfl
  | cons b rest ih =>
    have hb := hp b (List.mem_cons_self b rest)
    rw [List.foldl_cons]
    have h1 : stepByte ⟨buf, false, fe⟩ b = ⟨buf, false, fe⟩ := by
      simp [stepByte, hb]
    rw [h1]
    exact ih fun x hx => hp x (List.mem_cons_of_mem b hx)

theorem foldl_stepByte_collect (p : List Nat) (hp : ∀ b ∈ p, b ≠ MESSAGE_END_BYTE)
    (acc : List Nat) :
    p.foldl stepByte ⟨acc, true, false⟩ = ⟨acc ++ p, true, false⟩ := by
  induction p generalizing acc with
  | nil => simp
  | cons b rest ih =>
    have hb := hp b (List.mem_cons_self b rest)
    rw [List.foldl_cons]
    have h1 : stepByte ⟨acc, true, false⟩ b = ⟨acc ++ [b], true, false⟩ := by
      simp [stepByte, hb]
    rw [h1, ih (fun x hx => hp x (List.mem_cons_of_mem b hx)) (acc ++ [b])]
    simp

/-- Folding the byte step over garbage, delimiter, payload, delimiter, tail
lands in the completed state holding exactly the payload. -/
theorem foldl_stepByte_frame (pre mid post : List Nat)
    (hpre : ∀ b ∈ pre, b ≠ MESSAGE_END_BYTE) (hmid : ∀ b ∈ mid, b ≠ MESSAGE_END_BYTE) :
    (pre ++ MESSAGE_END_BYTE :: (mid ++ MESSAGE_END_BYTE :: post)).foldl stepByte initReadState
      = ⟨mid, true, true⟩ := by
  have hinit : initReadState = (⟨[], false, false⟩ : ReadState) := rfl
  rw [hinit, List.foldl_append, foldl_stepByte_skip pre hpre [] false, List.foldl_cons]
  have h1 : stepByte ⟨[], false, false⟩ MESSAGE_END_BYTE = ⟨[], true, false⟩ := by
    simp [stepByte]
  rw [h1, List.foldl_append, foldl_stepByte_collect mid hmid [], List.foldl_cons]
  have h2 : stepByte ⟨[] ++ mid, true, false⟩ MESSAGE_END_BYTE = ⟨[] ++ mid, true, true⟩ := by
    simp [stepByte]
  rw [h2, foldl_stepByte_stable post _ rfl rfl]
  simp

/-- The framing loop, over any chunking whose concatenation is garbage,
delimiter, payload, delimiter, tail, returns exactly the payload bytes. -/
theorem readLoop_frame (chunks : List (List Nat)) (pre mid post : List Nat)
    (hj : chunks.flatten = pre ++ MESSAGE_END_BYTE :: (mid ++ MESSAGE_END_BYTE :: post))
    (hpre : ∀ b ∈ pre, b ≠ MESSAGE_END_BYTE) (hmid : ∀ b ∈ mid, b ≠ MESSAGE_END_BYTE) :
    (readLoop initReadState (chunks.map ReadEvent.chunk)).1 = ReadOutcome.ok mid := by
  rw [readLoop_chunks chunks initReadState (by intro h; exact absurd h (by decide)), hj,
    foldl_stepByte_frame pre mid post hpre hmid]
  simp

/-- read_message_string on such a chunking returns the payload string when
the payload bytes are valid UTF-8. -/
theorem read_message_string_frame (chunks : List (List Nat)) (pre mid post : List Nat)
    (hj : chunks.flatten = pre ++ MESSAGE_END_BYTE :: (mid ++ MESSAGE_END_BYTE :: post))
    (hpre : ∀ b ∈ pre, b ≠ MESSAGE_END_BYTE) (hmid : ∀ b ∈ mid, b ≠ MESSAGE_END_BYTE)
    (hu : utf8Valid mid = true) :
    (read_message_string (chunks.map ReadEvent.chunk)).1 = StrResult.ok mid := by
  have h1 := readLoop_frame chunks pre mid post hj hpre hmid
  rcases hrl : readLoop initReadState (chunks.map ReadEvent.chunk) with ⟨o, rest⟩
  rw [hrl] at h1
  simp only at h1
  subst h1
  simp [read_message_string, hrl, hu]

/-- C2 (amended): for every payload byte sequence that is valid UTF-8 and
contains no delimiter byte, feeding delim-payload-delim through
read_message_string returns exactly that payload, for every chunking of the
stream by the underlying reads, including zero-byte reads (empty chunks are
allowed anywhere and the loop keeps reading through them). -/
theorem framing_roundtrip (chunks : List (List Nat)) (payload : List Nat)
    (hj : chunks.flatten = MESSAGE_END_BYTE :: (payload ++ [MESSAGE_END_BYTE]))
    (hp : ∀ b ∈ payload, b ≠ MESSAGE_END_BYTE) (hu : utf8Valid payload = true) :
    (read_message_string (chunks.map ReadEvent.chunk)).1 = StrResult.ok payload :=
  read_message_string_frame chunks [] payload [] (by simpa using hj) (by simp) hp hu

/-- Witness for framing_roundtrip: payload "hi" split into single-byte and
zero-byte reads. -/
theorem framing_roundtrip_witness :
    (read_message_string ([[], [10], [104], [], [105], [10]].map ReadEvent.chunk)).1
      = StrResult.ok [104, 105] :=
  framing_roundtrip [[], [10], [104], [], [105], [10]] [104, 105] (by decide) (by decide)
    (by decide)

/-- C2 counterexample: the payload [255] contains no delimiter byte, yet
read_message_string does not return it — the byte 255 is not valid UTF-8, so
String::from_utf8 fails and the function returns Error::UtfConversion. -/
theorem framing_roundtrip_counterexample :
    (255 : Nat) ≠ MESSAGE_END_BYTE ∧
    (read_message_string [ReadEvent.chunk [MESSAGE_END_BYTE, 255, MESSAGE_END_BYTE]]).1
      ≠ StrResult.ok [255] ∧
    (read_message_string [ReadEvent.chunk [MESSAGE_END_BYTE, 255, MESSAGE_END_BYTE]]).1
      = StrResult.err Error.utfConversion := by
  refine ⟨by decide, by decide, by decide⟩

/-- C3: in every call to read_message_string, bytes before the first
delimiter seen in that call are discarded and the collected message buffer
is exactly the bytes strictly between the first and second delimiter; the
returned string is those bytes whenever they convert from UTF-8. -/
theorem resynchronization (chunks : List (List Nat)) (pre mid post : List Nat)
    (hj : chunks.flatten = pre ++ MESSAGE_END_BYTE :: (mid ++ MESSAGE_END_BYTE :: post))
    (hpre : ∀ b ∈ pre, b ≠ MESSAGE_END_BYTE) (hmid : ∀ b ∈ mid, b ≠ MESSAGE_END_BYTE) :
    (readLoop initReadState (chunks.map ReadEvent.chunk)).1 = ReadOutcome.ok mid ∧
    (utf8Valid mid = true →
      (read_message_string (chunks.map ReadEvent.chunk)).1 = StrResult.ok mid) :=
  ⟨readLoop_frame chunks pre mid post hj hpre hmid,
   fun hu => read_message_string_frame chunks pre mid post hj hpre hmid hu⟩

/-- Witness for resynchronization: garbage bytes 7, 8 before the first
delimiter are discarded; the payload is the single byte 104; the byte 99
after the second delimiter is left on the port. -/
theorem resynchronization_witness :
    (readLoop initReadState ([[7], [8, 10, 104], [10, 99]].map ReadEvent.chunk)).1
      = ReadOutcome.ok [104] ∧
    (utf8Valid [104] = true →
      (read_message_string ([[7], [8, 10, 104], [10, 99]].map ReadEvent.chunk)).1
        = StrResult.ok [104]) :=
  resynchronization [[7], [8, 10, 104], [10, 99]] [7, 8] [104] [99] (by decide) (by decide)
    (by decide)

/-- C1: in the Serving loop, a transport I/O error from read_message or from
the write performed by write_message breaks the loop and abandons the port
(the Faulted transition), while a UTF-8 conversion or JSON parsing error is
only logged and the loop stays in Serving, going on to read the next
message. -/
theorem error_classification (factor : ℚ) (writeOk : Bool) (evs : List ReadEvent) :
    ((read_message false evs).1 = MsgResult.err Error.ioError →
      (serving_step factor writeOk evs).1 = StepOutcome.faulted) ∧
    ((read_message false evs).1 = MsgResult.err Error.utfConversion →
      (serving_step factor writeOk evs).1 = StepOutcome.stayServing) ∧
    (∀ src, (read_message false evs).1 = MsgResult.err (Error.jsonParsing src) →
      (serving_step factor writeOk evs).1 = StepOutcome.stayServing) ∧
    (∀ m out, (read_message false evs).1 = MsgResult.ok m →
      handle_message factor m = some out → writeOk = false →
      (serving_step factor writeOk evs).1 = StepOutcome.faulted) := by
  rcases hrm : read_message false evs with ⟨r, fl, rest⟩
  refine ⟨?_, ?_, ?_, ?_⟩
  · intro h
    have h2 : r = MsgResult.err Error.ioError := h
    subst h2
    simp [serving_step, hrm, handle_error]
  · intro h
    have h2 : r = MsgResult.err Error.utfConversion := h
    subst h2
    simp [serving_step, hrm, handle_error]
  · intro src h
    have h2 : r = MsgResult.err (Error.jsonParsing src) := h
    subst h2
    simp [serving_step, hrm, handle_error]
  · intro m out h hm hw
    have h2 : r = MsgResult.ok m := h
    subst h2
    subst hw
    simp [serving_step, hrm, dispatch_write, hm, write_message, handle_error]

/-- Witness for error_classification: an I/O error while reading faults the
session; a non-UTF-8 frame and an unparsable frame keep it Serving; a failed
write of the Data response to a NeedGaugeData request faults the session. -/
theorem error_classification_witness :
    (serving_step 0 true [ReadEvent.ioErr]).1 = StepOutcome.faulted ∧
    (serving_step 0 true [ReadEvent.chunk [10, 255, 10]]).1 = StepOutcome.stayServing ∧
    (serving_step 0 true [ReadEvent.chunk [10, 123, 10]]).1 = StepOutcome.stayServing ∧
    (serving_step 0 false
      [ReadEvent.chunk [10, 123, 34, 116, 121, 112, 101, 34, 58, 50, 125, 10]]).1
      = StepOutcome.faulted :=
  ⟨(error_classification 0 true [ReadEvent.ioErr]).1 (by decide),
   (error_classification 0 true [ReadEvent.chunk [10, 255, 10]]).2.1 (by decide),
   (error_classification 0 true [ReadEvent.chunk [10, 123, 10]]).2.2.1 [123] (by decide),
   (error_classification 0 false
       [ReadEvent.chunk [10, 123, 34, 116, 121, 112, 101, 34, 58, 50, 125, 10]]).2.2.2
     InMessage.needGaugeData
     (OutMessage.data ⟨⟨[⟨77 * 0⟩]⟩, ⟨[⟨(6.5 : ℚ) * 0⟩]⟩, ⟨[]⟩⟩)
     (by decide) rfl rfl⟩

/-- C5: with the is_communication_begin flag set (as main sets it for every
freshly acquired port), the first read_message call synthesizes
NeedGaugeConfig, clears the flag and performs no read (the port events are
untouched); with the flag cleared it never sets it again, and any message it
returns arises from a framed payload read off the wire that parsed and
deserialized to that message. -/
theorem implicit_handshake :
    (∀ evs, read_message true evs = (MsgResult.ok InMessage.needGaugeConfig, false, evs)) ∧
    (∀ evs, (read_message false evs).2.1 = false) ∧
    (∀ evs m, (read_message false evs).1 = MsgResult.ok m →
      ∃ payload rest v,
        read_message_string evs = (StrResult.ok payload, rest) ∧
        parseJson payload = some v ∧
        inMessage_deserialize v = DeserResult.ok m) := by
  refine ⟨fun evs => by simp [read_message], fun evs => ?_, fun evs m h => ?_⟩
  · rcases hs : read_message_string evs with ⟨sr, rest⟩
    cases sr with
    | ok payload =>
      cases hp : parseJson payload with
      | none => simp [read_message, hs, hp]
      | some v =>
        cases hd : inMessage_deserialize v with
        | ok m2 => simp [read_message, hs, hp, hd]
        | panicked => simp [read_message, hs, hp, hd]
    | err e => simp [read_message, hs]
    | blocked => simp [read_message, hs]
  · rcases hs : read_message_string evs with ⟨sr, rest⟩
    cases sr with
    | ok payload =>
      cases hp : parseJson payload with
      | none => simp [read_message, hs, hp] at h
      | some v =>
        cases hd : inMessage_deserialize v with
        | ok m2 =>
          simp [read_message, hs, hp, hd] at h
          exact ⟨payload, rest, v, rfl, hp, by rw [hd, h]⟩
        | panicked => simp [read_message, hs, hp, hd] at h
    | err e => simp [read_message, hs] at h
    | blocked => simp [read_message, hs] at h

/-- Witness for implicit_handshake: the wire frame of the text with
discriminant 2 yields NeedGaugeData through the wire-decode chain. -/
theorem implicit_handshake_witness :
    ∃ payload rest v,
      read_message_string [ReadEvent.chunk [10, 123, 34, 116, 121, 112, 101, 34, 58, 50, 125, 10]]
        = (StrResult.ok payload, rest) ∧
      parseJson payload = some v ∧
      inMessage_deserialize v = DeserResult.ok InMessage.needGaugeData :=
  implicit_handshake.2.2 [ReadEvent.chunk [10, 123, 34, 116, 121, 112, 101, 34, 58, 50, 125, 10]]
    InMessage.needGaugeData (by decide)

/-- C8: handle_message is total over the message variants; NeedGaugeConfig
and NeedGaugeData both produce Some response whose per-display gauge counts
are exactly (1, 1, 0) — the Data arity matching the Configuration sent
earlier in the session — and the no-reply Debug variant produces None, which
the loop body treats as no write and never as an error: the session stays
Serving regardless of the write channel's state. -/
theorem dispatch_totality (factor : ℚ) (writeOk : Bool) (msg : List Nat) :
    (∃ c, handle_message factor InMessage.needGaugeConfig
        = some (OutMessage.configuration c) ∧
      c.display1.gauges.length = 1 ∧ c.display2.gauges.length = 1 ∧
      c.display3.gauges.length = 0) ∧
    (∃ d, handle_message factor InMessage.needGaugeData = some (OutMessage.data d) ∧
      d.display1.gauges.length = 1 ∧ d.display2.gauges.length = 1 ∧
      d.display3.gauges.length = 0) ∧
    handle_message factor (InMessage.debug msg) = none ∧
    dispatch_write factor writeOk (InMessage.debug msg) = (StepOutcome.stayServing, none) :=
  ⟨⟨_, rfl, rfl, rfl, rfl⟩, ⟨_, rfl, rfl, rfl, rfl⟩, rfl, rfl⟩

/-- C9: every NeedGaugeData response carries display1 value 77.0 times the
shared factor and display2 value 6.5 times the same factor; for a factor in
[0, 1) — the range rng.gen::<f32>() draws from — the values lie in [0, 77.0]
and [0, 6.5] and move in exact lockstep: value1 / 77.0 equals value2 / 6.5. -/
theorem data_bounds_lockstep (factor : ℚ) (h0 : 0 ≤ factor) (h1 : factor < 1) :
    ∃ d, handle_message factor InMessage.needGaugeData = some (OutMessage.data d) ∧
      d.display1.gauges.map GaugeData.current_value = [77 * factor] ∧
      d.display2.gauges.map GaugeData.current_value = [(6.5 : ℚ) * factor] ∧
      0 ≤ 77 * factor ∧ 77 * factor ≤ 77 ∧
      0 ≤ (6.5 : ℚ) * factor ∧ (6.5 : ℚ) * factor ≤ 6.5 ∧
      77 * factor / 77 = (6.5 : ℚ) * factor / (6.5 : ℚ) := by
  refine ⟨_, rfl, rfl, rfl, ?_, ?_, ?_, ?_, ?_⟩
  · nlinarith
  · nlinarith
  · nlinarith
  · nlinarith
  · rw [mul_div_cancel_left₀ factor (by norm_num : (77 : ℚ) ≠ 0),
      mul_div_cancel_left₀ factor (by norm_num : (6.5 : ℚ) ≠ 0)]

/-- Witness for data_bounds_lockstep at factor one half. -/
theorem data_bounds_lockstep_witness :
    ∃ d, handle_message (1 / 2) InMessage.needGaugeData = some (OutMessage.data d) ∧
      d.display1.gauges.map GaugeData.current_value = [77 * (1 / 2)] ∧
      d.display2.gauges.map GaugeData.current_value = [(6.5 : ℚ) * (1 / 2)] ∧
      0 ≤ 77 * (1 / 2 : ℚ) ∧ 77 * (1 / 2 : ℚ) ≤ 77 ∧
      0 ≤ (6.5 : ℚ) * (1 / 2) ∧ (6.5 : ℚ) * (1 / 2) ≤ 6.5 ∧
      77 * (1 / 2 : ℚ) / 77 = (6.5 : ℚ) * (1 / 2) / (6.5 : ℚ) :=
  data_bounds_lockstep (1 / 2) (by norm_num) (by norm_num)

/-- The exact Configuration payload of spec section 8.7, as bytes. -/
def expectedConfigPayload : List Nat :=
  strBytes ("\x7b\"type\":1,\"message\":\x7b\"theme\":\x7b\"ok_color\":64512,\"low_color\":31,\"high_color\":63488,\"alert_color\":63488\x7d,\"display1\":\x7b\"gauges\":[\x7b\"name\":\"COOLANT\",\"units\":\"C\",\"format\":\"%.0f\",\"min\":0.0,\"max\":130.0,\"low_value\":60.0,\"high_value\":100.0\x7d]\x7d,\"display2\":\x7b\"gauges\":[\x7b\"name\":\"OIL\",\"units\":\"bar\",\"format\":\"%.2f\",\"min\":0.0,\"max\":10.0,\"low_value\":1.0,\"high_value\":8.0\x7d]\x7d,\"display3\":\x7b\"gauges\":[]\x7d\x7d\x7d")

/-- The raw inbound frame of spec section 8.7: delimiter, the text with
discriminant 1, delimiter. -/
def inboundTypeOneFrame : List Nat := [10] ++ strBytes ("\x7b\"type\":1\x7d") ++ [10]

/-- C4 counterexample: on the section 8.7 scenario the program writes the
Configuration payload followed by one trailing delimiter byte only —
write_message pushes a single MESSAGE_END_BYTE after the serialized message
and never writes a leading one — so the output is not the claimed
delimiter-payload-delimiter sequence. -/
theorem end_to_end_counterexample :
    serving_step 0 true [ReadEvent.chunk inboundTypeOneFrame]
      = (StepOutcome.stayServing, some (expectedConfigPayload ++ [MESSAGE_END_BYTE]), []) ∧
    some (expectedConfigPayload ++ [MESSAGE_END_BYTE])
      ≠ some (MESSAGE_END_BYTE :: (expectedConfigPayload ++ [MESSAGE_END_BYTE])) := by
  refine ⟨by decide, by decide⟩

/-- C4 (amended): feeding the raw inbound frame of section 8.7 to a session
in Serving writes exactly the section 8.7 Configuration payload — field
order and values fixed — followed by a single trailing delimiter byte, with
no leading delimiter, and the session stays in Serving. -/
theorem end_to_end_scenario :
    serving_step 0 true [ReadEvent.chunk inboundTypeOneFrame]
      = (StepOutcome.stayServing, some (expectedConfigPayload ++ [MESSAGE_END_BYTE]), []) := by
  decide

/-- C6: a well-formed JSON payload whose integer discriminant is neither 1
nor 2 — here the text with "type" 3 — parses to a Value on which
InMessage::deserialize hits the unsupported-discriminant panic arm,
terminating the process instead of returning an error value; the panic is
reached from the Serving read path. -/
theorem unknown_discriminant_panics :
    parseJson [123, 34, 116, 121, 112, 101, 34, 58, 51, 125]
      = some (Json.obj [(typeKey, Json.intNum 3)]) ∧
    inMessage_deserialize (Json.obj [(typeKey, Json.intNum 3)]) = DeserResult.panicked ∧
    (serving_step 0 true
        [ReadEvent.chunk [10, 123, 34, 116, 121, 112, 101, 34, 58, 51, 125, 10]]).1
      = StepOutcome.panicked := by
  refine ⟨rfl, rfl, by decide⟩

/-- C10: any parsed payload Value on which the get("type")/as_u64 chain is
None — no "type" member, or its value not an unsigned integer — makes
InMessage deserialization panic, and the panic is reachable from the
Serving read path: the framed texts for the empty object and for a string
discriminant drive serving_step into the process-terminating outcome. -/
theorem deserialize_panic_reachable :
    (∀ v : Json, (Json.get v typeKey).bind Json.as_u64 = none →
      inMessage_deserialize v = DeserResult.panicked) ∧
    (serving_step 0 true [ReadEvent.chunk [10, 123, 125, 10]]).1 = StepOutcome.panicked ∧
    (serving_step 0 true
        [ReadEvent.chunk [10, 123, 34, 116, 121, 112, 101, 34, 58, 34, 49, 34, 125, 10]]).1
      = StepOutcome.panicked := by
  refine ⟨fun v h => ?_, by decide, by decide⟩
  simp [inMessage_deserialize, h]

/-- Witness for deserialize_panic_reachable: the empty object has no "type"
member and deserialization panics on it. -/
theorem deserialize_panic_witness :
    inMessage_deserialize (Json.obj []) = DeserResult.panicked :=
  deserialize_panic_reachable.1 (Json.obj []) rfl

/-- C7 counterexample: get_port does not return None when enumeration fails
or when opening the first discovered port fails — the .expect calls panic
and terminate the process in both cases. -/
theorem get_port_counterexample :
    get_port none (fun _ => some (some ("COM3"))) = GetPortOutcome.panicked ∧
    get_port none (fun _ => some (some ("COM3"))) ≠ GetPortOutcome.nonePort ∧
    get_port (some [("COM3")]) (fun _ => none) = GetPortOutcome.panicked ∧
    get_port (some [("COM3")]) (fun _ => none) ≠ GetPortOutcome.nonePort := by
  refine ⟨rfl, by decide, rfl, by decide⟩

/-- C7 (amended): get_port returns None exactly when enumeration succeeds
with an empty port list; a failed enumeration, a failed open of the first
discovered port, and a nameless opened port all panic (process
termination); on success it returns the first enumerated port opened at
115200 baud with a 1000 ms read timeout. -/
theorem get_port_contract (openPort : String → Option (Option String)) (n nm : String)
    (rest : List String) :
    get_port none openPort = GetPortOutcome.panicked ∧
    get_port (some []) openPort = GetPortOutcome.nonePort ∧
    (openPort n = none → get_port (some (n :: rest)) openPort = GetPortOutcome.panicked) ∧
    (openPort n = some none → get_port (some (n :: rest)) openPort = GetPortOutcome.panicked) ∧
    (openPort n = some (some nm) →
      get_port (some (n :: rest)) openPort = GetPortOutcome.somePort ⟨n, 115200, 1000⟩) := by
  refine ⟨rfl, rfl, fun h => ?_, fun h => ?_, fun h => ?_⟩ <;> simp [get_port, h]

/-- Witness for get_port_contract: an open failure panics; a successful open
of the first port yields it at 115200 baud with a 1000 ms timeout. -/
theorem get_port_contract_witness :
    get_port (some [("COM3")]) (fun _ => none) = GetPortOutcome.panicked ∧
    get_port (some [("COM3")]) (fun _ => some (some ("COM3")))
      = GetPortOutcome.somePort ⟨"COM3", 115200, 1000⟩ :=
  ⟨(get_port_contract (fun _ => none) ("COM3") ("COM3") []).2.2.1 rfl,
   (get_port_contract (fun _ => some (some ("COM3"))) ("COM3") ("COM3") []).2.2.2.2 rfl⟩

end GaugesBackend
